import Mathlib

/-!
Verification development for the pvp-games duel-snake system.

The definitions below are a shallow embedding of the TypeScript sources:
the deterministic simulation engine (`packages/games/src/duel-snake/engine.ts`),
the authority protocol host and client (`packages/games/src/duel-snake/online.ts`),
the transport endpoints (`packages/shared/src/webrtc.ts`, the WebSocket relay
endpoint, and the `HybridTransport`), and the room coordinators (the
`GameRoom` durable object and the local signaling server).

Modelling conventions:
* JavaScript 32-bit integer bit patterns are tracked as `Nat` values reduced
  modulo `2 ^ 32`; signed and unsigned views share bit patterns, and the
  source always reads the state through `>>> 0`, so this is faithful.
* `Math.floor(random() * len) % len`, with `random() = s / 0xffffffff`, is
  modelled by the exact integer computation `s * len / 0xffffffff % len`
  (the exact rational floor); the source's double rounding can deviate from
  the exact floor only at representation boundaries, and every property
  proved here depends only on the index being in range or on the generator
  being a pure function of its state.
* `String.charCodeAt` is modelled with Unicode code points, which agrees
  with UTF-16 code units on the ASCII seeds used throughout.
* Mutation is modelled by explicit state passing; wall-clock reads
  (`Date.now()`) are passed in as explicit `now` arguments where a handler
  uses them.
-/

/-- Player slot identifiers (`PlayerId` in engine.ts). -/
inductive PlayerId where
  | p1
  | p2
deriving DecidableEq, Repr

/-- Movement directions (`Direction` in engine.ts). -/
inductive Direction where
  | up
  | down
  | left
  | right
deriving DecidableEq, Repr

/-- Game lifecycle status (`GameStatus` in engine.ts). -/
inductive GameStatus where
  | idle
  | ready
  | running
  | finished
deriving DecidableEq, Repr

/-- A grid cell (`Point` in engine.ts).  Coordinates are integers; the
engine computes candidate head cells outside the grid before classifying
them as wall collisions, so `Int` is the faithful carrier. -/
structure Point where
  x : Int
  y : Int
deriving DecidableEq, Repr

/-- Per-actor state (`PlayerState` in engine.ts).  The `id` field of the
source is redundant with the slot the record is stored under and is
omitted. -/
structure PlayerState where
  direction : Direction
  pendingDirection : Option Direction
  segments : List Point
  score : Nat
  alive : Bool
  ready : Bool
  respawnTicksRemaining : Nat
deriving DecidableEq, Repr

/-- The full engine state (the private fields of class `DuelSnakeGame`),
including the `SeededRandom` generator state `rng`. -/
structure DuelSnakeGame where
  width : Int
  height : Int
  targetScore : Nat
  tickIntervalMs : Nat
  rng : Nat
  status : GameStatus
  winner : Option PlayerId
  p1 : PlayerState
  p2 : PlayerState
  fruit : Point
deriving DecidableEq, Repr

/-- The snapshot returned by `getState()` (`DuelSnakeState` in engine.ts):
everything observable, without the generator state. -/
structure DuelSnakeState where
  status : GameStatus
  p1 : PlayerState
  p2 : PlayerState
  fruit : Point
  targetScore : Nat
  winner : Option PlayerId
  tickIntervalMs : Nat
  width : Int
  height : Int
deriving DecidableEq, Repr

/-- The `OPPOSITE` lookup table from engine.ts. -/
def OPPOSITE : Direction → Direction
  | .up => .down
  | .down => .up
  | .left => .right
  | .right => .left

/-- The `directionDelta` helper from engine.ts. -/
def directionDelta : Direction → Point
  | .up => ⟨0, -1⟩
  | .down => ⟨0, 1⟩
  | .left => ⟨-1, 0⟩
  | .right => ⟨1, 0⟩

/-- The modulus of JavaScript 32-bit bit patterns, 2^32. -/
def UINT32 : Nat := 4294967296

/-- One step of the FNV-1a hash used by `SeededRandom.hash`
(`h ^= c; h = Math.imul(h, 0x01000193)`). -/
def fnv1aStep (h c : Nat) : Nat := ((h ^^^ c) * 16777619) % UINT32

/-- Hash of `SeededRandom.hash`: FNV-1a over the seed's character codes,
starting from 0x811c9dc5. -/
def seedHash (seed : String) : Nat :=
  seed.data.foldl (fun h ch => fnv1aStep h ch.toNat) 2166136261

/-- State update of `SeededRandom.next`: xorshift32
(`s ^= s << 13; s ^= s >>> 17; s ^= s << 5`), on 32-bit patterns. -/
def xorshift32 (s : Nat) : Nat :=
  let s1 := (s ^^^ (s <<< 13)) % UINT32
  let s2 := s1 ^^^ (s1 >>> 17)
  (s2 ^^^ (s2 <<< 5)) % UINT32

/-- The index computation `Math.floor((s / 0xffffffff) * len) % len` as an exact integer
computation on the raw generator output `s`. -/
def randPick (s len : Nat) : Nat := s * len / 4294967295 % len

/-- The integers `lo, lo+1, ..., hi-1` (empty when `hi ≤ lo`): the index
set of a JavaScript `for (let i = lo; i < hi; i += 1)` loop. -/
def intRange (lo hi : Int) : List Int :=
  (List.range (hi - lo).toNat).map (fun k : Nat => lo + (k : Int))

/-- The `createPlayer` helper from engine.ts (segments are filled in afterwards by
the constructor, as in the source). -/
def createPlayer (direction : Direction) : PlayerState :=
  { direction := direction
    pendingDirection := none
    segments := []
    score := 0
    alive := true
    ready := false
    respawnTicksRemaining := 0 }

/-- The `buildCornerSegments` helper from engine.ts. -/
def buildCornerSegments (width height : Int) : PlayerId → List Point
  | .p1 => [⟨2, 1⟩, ⟨1, 1⟩, ⟨0, 1⟩]
  | .p2 =>
      let y := height - 2
      let x := width - 3
      [⟨x, y⟩, ⟨x + 1, y⟩, ⟨x + 2, y⟩]

/-- The `collectOccupied` helper from engine.ts: both bodies, p1 first. -/
def collectOccupied (g : DuelSnakeGame) : List Point :=
  g.p1.segments ++ g.p2.segments

/-- The `available` list built by `spawnFruit`: all grid cells not covered
by either body, scanned with `x` outer and `y` inner. -/
def availableCells (width height : Int) (occupied : List Point) : List Point :=
  (intRange 0 width).flatMap (fun x =>
    (intRange 0 height).filterMap (fun y =>
      if (⟨x, y⟩ : Point) ∈ occupied then none else some ⟨x, y⟩))

/-- The `spawnFruit` routine from engine.ts, returning the fruit cell and the updated
generator state (the generator advances only when a random cell is
actually drawn, exactly as in the source). -/
def spawnFruit (g : DuelSnakeGame) : Point × Nat :=
  let available := availableCells g.width g.height (collectOccupied g)
  if hne : available = [] then (⟨0, 0⟩, g.rng)
  else
    let s := xorshift32 g.rng
    let idx := randPick s available.length
    (available.get ⟨idx, Nat.mod_lt _ (List.length_pos.mpr hne)⟩, s)

/-- Constructor options (`DuelSnakeOptions`), without the injectable
`random` override: the claims below concern the self-contained seeded
generator. -/
structure DuelSnakeOptions where
  width : Int
  height : Int
  targetScore : Nat
  tickIntervalMs : Nat
  seed : String
deriving DecidableEq, Repr

/-- The constructor defaults of `DuelSnakeGame`. -/
def defaultOptions : DuelSnakeOptions :=
  { width := 40, height := 30, targetScore := 10, tickIntervalMs := 120
    seed := "duel-snake" }

/-- The `DuelSnakeGame` constructor: players at their corners, then one
fruit placement (which may consume one generator draw). -/
def mkGame (o : DuelSnakeOptions) : DuelSnakeGame :=
  let base : DuelSnakeGame :=
    { width := o.width
      height := o.height
      targetScore := o.targetScore
      tickIntervalMs := o.tickIntervalMs
      rng := seedHash o.seed
      status := .idle
      winner := none
      p1 := { createPlayer .right with segments := buildCornerSegments o.width o.height .p1 }
      p2 := { createPlayer .left with segments := buildCornerSegments o.width o.height .p2 }
      fruit := ⟨0, 0⟩ }
  let fr := spawnFruit base
  { base with fruit := fr.1, rng := fr.2 }

/-- Slot projection on the engine state. -/
def DuelSnakeGame.player (g : DuelSnakeGame) : PlayerId → PlayerState
  | .p1 => g.p1
  | .p2 => g.p2

/-- Slot update on the engine state. -/
def DuelSnakeGame.setPlayer (g : DuelSnakeGame) : PlayerId → PlayerState → DuelSnakeGame
  | .p1, pl => { g with p1 := pl }
  | .p2, pl => { g with p2 := pl }

/-- The `getState()` projection: the observable snapshot. -/
def DuelSnakeGame.getState (g : DuelSnakeGame) : DuelSnakeState :=
  { status := g.status, p1 := g.p1, p2 := g.p2, fruit := g.fruit
    targetScore := g.targetScore, winner := g.winner
    tickIntervalMs := g.tickIntervalMs, width := g.width, height := g.height }

/-- The `ready(player)` operation from engine.ts. -/
def DuelSnakeGame.readyUp (g : DuelSnakeGame) (id : PlayerId) : DuelSnakeGame :=
  if g.status = .finished then g
  else
    let g := g.setPlayer id { g.player id with ready := true }
    if g.p1.ready ∧ g.p2.ready then { g with status := .ready } else g

/-- The `start()` operation from engine.ts. -/
def DuelSnakeGame.start (g : DuelSnakeGame) : DuelSnakeGame :=
  if g.status = .ready then { g with status := .running } else g

/-- The `queueInput(player, direction)` operation from engine.ts: ignored during respawn
cooldown and when the input is the exact reverse of the current heading. -/
def DuelSnakeGame.queueInput (g : DuelSnakeGame) (id : PlayerId) (d : Direction) : DuelSnakeGame :=
  let pl := g.player id
  if 0 < pl.respawnTicksRemaining then g
  else if OPPOSITE pl.direction = d then g
  else g.setPlayer id { pl with pendingDirection := some d }

/-- The per-actor record of `plannedMoves` in `tick()`. -/
structure PlannedMove where
  next : Point
  grow : Bool
  collide : Bool
deriving DecidableEq, Repr

/-- The head cell `player.segments[0]`.  In the source an empty body would throw; bodies
are never empty in any state the engine constructs, and the default keeps
the model total. -/
def headCell (segs : List Point) : Point := segs.headD ⟨0, 0⟩

/-- Phase 1 of `tick()` for one actor: cooldown handling, applying at most
one pending direction change (re-rejecting reversals), and classifying the
candidate next head cell against the frozen `occupied` snapshot and the
current fruit.  Returns the updated actor and its planned move. -/
def phase1 (width height : Int) (fruit : Point) (occupied : List Point)
    (pl : PlayerState) : PlayerState × PlannedMove :=
  if 0 < pl.respawnTicksRemaining then
    ({ pl with respawnTicksRemaining := pl.respawnTicksRemaining - 1 },
     { next := headCell pl.segments, grow := false, collide := false })
  else if pl.alive = false then
    (pl, { next := ⟨0, 0⟩, grow := false, collide := true })
  else
    let pl :=
      match pl.pendingDirection with
      | some d => if OPPOSITE pl.direction = d then pl else { pl with direction := d }
      | none => pl
    let pl := { pl with pendingDirection := none }
    let delta := directionDelta pl.direction
    let head := headCell pl.segments
    let nextHead : Point := ⟨head.x + delta.x, head.y + delta.y⟩
    let hitWall : Bool :=
      decide (nextHead.x < 0 ∨ width ≤ nextHead.x ∨ nextHead.y < 0 ∨ height ≤ nextHead.y)
    let hitBody : Bool := decide (nextHead ∈ occupied)
    (pl, { next := nextHead, grow := decide (nextHead = fruit), collide := hitWall || hitBody })

/-- A respawn candidate: the new head cell and heading. -/
structure RespawnCandidate where
  x : Int
  y : Int
  direction : Direction
deriving DecidableEq, Repr

/-- The `buildRespawnSegments` helper from engine.ts: a straight body of three cells,
head first at `(x, y)`, extending away from the heading. -/
def buildRespawnSegments (x y : Int) : Direction → List Point
  | .right => [⟨x, y⟩, ⟨x - 1, y⟩, ⟨x - 2, y⟩]
  | .left => [⟨x, y⟩, ⟨x + 1, y⟩, ⟨x + 2, y⟩]
  | .up => [⟨x, y⟩, ⟨x, y + 1⟩, ⟨x, y + 2⟩]
  | .down => [⟨x, y⟩, ⟨x, y - 1⟩, ⟨x, y - 2⟩]

/-- The main candidate search of `respawnPlayer`: positions at least three
cells from every wall, any heading, whose three body cells and the cell
one step ahead of the head are all free of the other occupied cells. -/
def respawnCandidates (width height : Int) (occupiedSet : List Point) : List RespawnCandidate :=
  (intRange 3 (width - 3)).flatMap (fun x =>
    (intRange 3 (height - 3)).flatMap (fun y =>
      ([Direction.up, .down, .left, .right]).filterMap (fun d =>
        let segs := buildRespawnSegments x y d
        if segs.all (fun s => decide (s ∉ occupiedSet)) then
          let delta := directionDelta d
          let nh : Point := ⟨x + delta.x, y + delta.y⟩
          if nh ∉ occupiedSet ∧ 0 ≤ nh.x ∧ nh.x < width ∧ 0 ≤ nh.y ∧ nh.y < height then
            some ⟨x, y, d⟩
          else none
        else none)))

/-- The four corner fallback placements of `respawnPlayer`. -/
def cornerCandidates (width height : Int) : List RespawnCandidate :=
  [⟨2, 2, .right⟩, ⟨width - 3, 2, .left⟩, ⟨2, height - 3, .right⟩,
   ⟨width - 3, height - 3, .left⟩]

/-- The `respawnPlayer` routine from engine.ts: pick a safe placement (falling back to
corners, then to the first corner unconditionally), reset the body to
three cells, clear intents, reset the score and set a three-tick cooldown.
The generator advances only when a candidate is drawn at random. -/
def respawnPlayer (g : DuelSnakeGame) (id : PlayerId) : DuelSnakeGame :=
  let own := (g.player id).segments
  let occupiedSet := (collectOccupied g).filter (fun c => decide (c ∉ own))
  let candidates := respawnCandidates g.width g.height occupiedSet
  let candidates :=
    if candidates.isEmpty then
      (cornerCandidates g.width g.height).filter (fun c =>
        (buildRespawnSegments c.x c.y c.direction).all (fun s => decide (s ∉ occupiedSet)))
    else candidates
  let chosen : RespawnCandidate × Nat :=
    if hne : candidates = [] then (⟨2, 2, .right⟩, g.rng)
    else
      let s := xorshift32 g.rng
      let idx := randPick s candidates.length
      (candidates.get ⟨idx, Nat.mod_lt _ (List.length_pos.mpr hne)⟩, s)
  let g := { g with rng := chosen.2 }
  g.setPlayer id
    { g.player id with
      segments := buildRespawnSegments chosen.1.x chosen.1.y chosen.1.direction
      direction := chosen.1.direction
      pendingDirection := none
      alive := true
      score := 0
      respawnTicksRemaining := 3 }

/-- Phase 2 of `tick()` for one actor, applied sequentially (p1 then p2):
skip for cooldown actors (planned head equals current head and no
collision), respawn on collision, otherwise advance — prepending the head,
popping the tail unless growing, and on growth incrementing the score,
replacing the fruit and recording a win when the target is reached. -/
def applyPhase2 (g : DuelSnakeGame) (id : PlayerId) (plan : PlannedMove) : DuelSnakeGame :=
  let pl := g.player id
  if plan.next = headCell pl.segments ∧ plan.collide = false then g
  else if plan.collide then respawnPlayer g id
  else
    let segs := plan.next :: pl.segments
    if plan.grow = false then
      g.setPlayer id { pl with segments := segs.dropLast }
    else
      let g := g.setPlayer id { pl with segments := segs, score := pl.score + 1 }
      let fr := spawnFruit g
      let g := { g with fruit := fr.1, rng := fr.2 }
      if g.targetScore ≤ ((g.player id).score : Nat) then
        { g with winner := some id, status := .finished }
      else g

/-- The `tick()` operation from engine.ts: no-op unless running; a pending winner
finishes the game; otherwise plan both actors against a frozen snapshot,
then apply p1's move and p2's move in that order. -/
def DuelSnakeGame.tick (g : DuelSnakeGame) : DuelSnakeGame :=
  if g.status = .running then
    if g.winner.isSome then { g with status := .finished }
    else
      let occ := collectOccupied g
      let r1 := phase1 g.width g.height g.fruit occ g.p1
      let r2 := phase1 g.width g.height g.fruit occ g.p2
      let g1 := { g with p1 := r1.1, p2 := r2.1 }
      applyPhase2 (applyPhase2 g1 .p1 r1.2) .p2 r2.2
  else g

/-- The planned move `tick()` computes for a given actor from the current
state (the phase-1 classification). -/
def plannedMove (g : DuelSnakeGame) (id : PlayerId) : PlannedMove :=
  (phase1 g.width g.height g.fruit (collectOccupied g) (g.player id)).2

/-- Peer roles of the authority protocol (`PeerRole` in shared). -/
inductive PeerRole where
  | host
  | guest
deriving DecidableEq, Repr

/-- The `roleToPlayer` mapping from online.ts: the host drives p1, the guest p2. -/
def roleToPlayer : PeerRole → PlayerId
  | .host => .p1
  | .guest => .p2

/-- The opposite peer of a role. -/
def otherRole : PeerRole → PeerRole
  | .host => .guest
  | .guest => .host

/-- A transport envelope (`RealtimeEnvelope` in shared/realtime): sender
role, payload and creation timestamp. -/
structure RealtimeEnvelope (α : Type) where
  fromRole : PeerRole
  payload : α
  createdAt : Nat
deriving DecidableEq, Repr

/-- A buffered guest input on the host (`TimestampedInput` in online.ts). -/
structure TimestampedInput where
  direction : Direction
  receivedAt : Nat
  clientTick : Nat
deriving DecidableEq, Repr

/-- Inbound wire payloads the host reacts to (`DuelSnakeWireMessage`
variants handled by `DuelSnakeOnlineHost.handleMessage`). -/
inductive HostInMsg where
  | readyMsg
  | inputMsg (direction : Direction) (clientTick : Nat)
  | syncRequest
  | pingMsg (timestamp : Nat)
deriving DecidableEq, Repr

/-- The state of a `DuelSnakeOnlineHost`: ready flags, the bounded input
buffer, the engine, the cached snapshot and the tick counter. -/
structure HostState where
  readyHost : Bool
  readyGuest : Bool
  inputBuffer : List TimestampedInput
  game : DuelSnakeGame
  stateCache : DuelSnakeState
  tickCount : Nat
  disposed : Bool
deriving DecidableEq, Repr

/-- The `while (this.inputBuffer.length > this.maxInputBuffer)
this.inputBuffer.shift()` loop, with `maxInputBuffer = 5`. -/
def trimBuffer (l : List TimestampedInput) : List TimestampedInput :=
  if _hlen : 5 < l.length then trimBuffer l.tail else l
termination_by l.length
decreasing_by simp only [List.length_tail]; omega

/-- The `maybeStartAndSync` routine from online.ts (the broadcast itself carries the
cached snapshot and has no further state effect). -/
def maybeStartAndSync (h : HostState) : HostState :=
  if h.readyHost ∧ h.readyGuest ∧ h.stateCache.status = .idle then
    let game := h.game.start
    { h with game := game, stateCache := game.getState }
  else h

/-- The handler `DuelSnakeOnlineHost.handleMessage`: mark ready peers, buffer guest
inputs into the bounded FIFO (dropping the oldest entries past five), and
answer sync requests and pings (the replies carry no host state). -/
def hostHandleMessage (h : HostState) (now : Nat) (env : RealtimeEnvelope HostInMsg) : HostState :=
  if h.disposed then h
  else
    match env.payload with
    | .readyMsg =>
        let h :=
          match env.fromRole with
          | .host => { h with readyHost := true }
          | .guest => { h with readyGuest := true }
        let h := { h with game := h.game.readyUp (roleToPlayer env.fromRole) }
        maybeStartAndSync h
    | .inputMsg d t =>
        { h with inputBuffer := trimBuffer (h.inputBuffer ++ [⟨d, now, t⟩]) }
    | .syncRequest => h
    | .pingMsg _ => h

/-- The loop body `DuelSnakeOnlineHost.tick`: dequeue at most one buffered input, apply
it as the guest actor's intent, then advance the engine and cache the new
snapshot. -/
def hostTick (h : HostState) : HostState :=
  if h.disposed then h
  else
    let game :=
      match h.inputBuffer with
      | [] => h.game
      | i :: _ => h.game.queueInput (roleToPlayer .guest) i.direction
    let game := game.tick
    { h with
      game := game
      inputBuffer := h.inputBuffer.tail
      stateCache := game.getState
      tickCount := h.tickCount + 1 }

/-- Inbound wire payloads the client reacts to
(`DuelSnakeOnlineClient.handleMessage`). -/
inductive ClientInMsg where
  | stateMsg (snapshot : DuelSnakeState) (tick : Nat) (serverTime : Nat)
  | pongMsg (timestamp : Nat) (serverTime : Nat)
deriving DecidableEq, Repr

/-- The mirror state of a `DuelSnakeOnlineClient`. -/
structure ClientMirror where
  state : Option DuelSnakeState
  lastTick : Nat
  latencyMs : Nat
  disposed : Bool
deriving DecidableEq, Repr

/-- The handler `DuelSnakeOnlineClient.handleMessage`: a `state` payload is applied
only when `payload.tick >= this.lastTick`; a `pong` updates the latency
estimate (round trip over two, modelled with integer division). -/
def clientHandleMessage (c : ClientMirror) (now : Nat) (m : ClientInMsg) : ClientMirror :=
  if c.disposed then c
  else
    match m with
    | .stateMsg s t _ =>
        if c.lastTick ≤ t then { c with state := some s, lastTick := t } else c
    | .pongMsg ts _ => { c with latencyMs := (now - ts) / 2 }

/-- The observable state of a `WebRTCRealtimeEndpoint`: whether the data
channel is open, the pre-ready buffer, and the payloads handed to the
data channel in order. -/
structure RTCEndpointState (α : Type) where
  channelOpen : Bool
  pendingMessages : List α
  sentOnChannel : List α
  disposed : Bool
deriving DecidableEq, Repr

/-- The method `WebRTCRealtimeEndpoint.send`: buffer while the channel is not open,
otherwise hand the payload to the data channel. -/
def rtcSend (e : RTCEndpointState α) (p : α) : RTCEndpointState α :=
  if e.disposed then e
  else if e.channelOpen = false then { e with pendingMessages := e.pendingMessages ++ [p] }
  else { e with sentOnChannel := e.sentOnChannel ++ [p] }

/-- A sequence of `send` calls. -/
def rtcSendAll (e : RTCEndpointState α) (l : List α) : RTCEndpointState α :=
  l.foldl rtcSend e

/-- The `channel.onopen` handler installed by `setupDataChannel`: the
channel becomes open, every buffered payload is re-sent through `send`,
and the buffer is cleared. -/
def rtcHandleOpen (e : RTCEndpointState α) : RTCEndpointState α :=
  let e1 : RTCEndpointState α := { e with channelOpen := true }
  let e2 := rtcSendAll e1 e1.pendingMessages
  { e2 with pendingMessages := [] }

/-- The observable state of a `WebSocketRelayEndpoint`: socket open flag,
the `roomReady` flag, the pre-ready buffer, and the wire sends in order. -/
structure RelayEndpointState (α : Type) where
  wsOpen : Bool
  roomReady : Bool
  pendingMessages : List α
  sentOnWire : List α
  disposed : Bool
deriving DecidableEq, Repr

/-- The method `WebSocketRelayEndpoint.send`: buffer unless the socket is open and
the room is ready, otherwise send on the wire. -/
def relaySend (e : RelayEndpointState α) (p : α) : RelayEndpointState α :=
  if e.disposed then e
  else if (e.wsOpen && e.roomReady) = false then
    { e with pendingMessages := e.pendingMessages ++ [p] }
  else { e with sentOnWire := e.sentOnWire ++ [p] }

/-- A sequence of relay `send` calls. -/
def relaySendAll (e : RelayEndpointState α) (l : List α) : RelayEndpointState α :=
  l.foldl relaySend e

/-- The `room-ready` case of `WebSocketRelayEndpoint.handleWireMessage`:
mark the room ready, re-send every buffered payload through `send`, and
clear the buffer. -/
def relayHandleRoomReady (e : RelayEndpointState α) : RelayEndpointState α :=
  let e1 : RelayEndpointState α := { e with roomReady := true }
  let e2 := relaySendAll e1 e1.pendingMessages
  { e2 with pendingMessages := [] }

/-- The transport currently preferred by the `HybridTransport`. -/
inductive TransportType where
  | webrtc
  | websocket
deriving DecidableEq, Repr

/-- The observable state of a `HybridTransport`. -/
structure HybridState where
  role : PeerRole
  roomReady : Bool
  webrtcReady : Bool
  transportType : TransportType
  iceServers : List String
deriving DecidableEq, Repr

/-- Messages arriving on the `HybridTransport`'s WebSocket, as dispatched
by `handleWebSocketMessage` (the two raw fallthrough shapes of the
`default` case are kept as their own variants). -/
inductive HybridWsMsg (α : Type) where
  | joined
  | roomReadyMsg (iceServers : List String)
  | leaveMsg
  | pongMsg
  | offerMsg (sdp : String)
  | answerMsg (sdp : String)
  | iceCandidateMsg (candidate : String)
  | gameMsg (payload : α)
  | rawEnvelopeMsg (env : RealtimeEnvelope α)
  | rawTypedMsg (payload : α)
deriving DecidableEq, Repr

/-- A signaling message routed to the WebRTC negotiation handlers
(`handleOffer`, `handleAnswer`, `handleIceCandidate`). -/
inductive SignalKind where
  | offerSignal (sdp : String)
  | answerSignal (sdp : String)
  | iceSignal (candidate : String)
deriving DecidableEq, Repr

/-- The effect of one `handleWebSocketMessage` call: the next state, the
envelopes delivered to the subscribed listeners, and the signaling
messages routed to the negotiation handlers. -/
structure HybridHandleResult (α : Type) where
  state : HybridState
  delivered : List (RealtimeEnvelope α)
  signals : List SignalKind
deriving DecidableEq, Repr

/-- The handler `HybridTransport.handleWebSocketMessage`: signaling messages are always
routed to the negotiation handlers; `game` payloads and both raw
fallthrough shapes are delivered to listeners only while `webrtcReady` is
false.  (`room-ready` also kicks off negotiation; `pong` updates the
latency estimate; neither delivers game traffic.) -/
def hybridHandleWebSocketMessage (s : HybridState) (now : Nat) (m : HybridWsMsg α) :
    HybridHandleResult α :=
  match m with
  | .joined => ⟨s, [], []⟩
  | .roomReadyMsg ice => ⟨{ s with roomReady := true, iceServers := ice }, [], []⟩
  | .leaveMsg => ⟨s, [], []⟩
  | .pongMsg => ⟨s, [], []⟩
  | .offerMsg sdp => ⟨s, [], [.offerSignal sdp]⟩
  | .answerMsg sdp => ⟨s, [], [.answerSignal sdp]⟩
  | .iceCandidateMsg c => ⟨s, [], [.iceSignal c]⟩
  | .gameMsg p =>
      if s.webrtcReady then ⟨s, [], []⟩
      else ⟨s, [⟨otherRole s.role, p, now⟩], []⟩
  | .rawEnvelopeMsg env =>
      if s.webrtcReady then ⟨s, [], []⟩ else ⟨s, [env], []⟩
  | .rawTypedMsg p =>
      if s.webrtcReady then ⟨s, [], []⟩
      else ⟨s, [⟨otherRole s.role, p, now⟩], []⟩

/-- The signaling routing of `handleWebSocketMessage`, independent of any
suppression: which negotiation messages a given wire message carries. -/
def signalsOf : HybridWsMsg α → List SignalKind
  | .offerMsg sdp => [.offerSignal sdp]
  | .answerMsg sdp => [.answerSignal sdp]
  | .iceCandidateMsg c => [.iceSignal c]
  | _ => []

/-- The `channel.onopen` handler of `HybridTransport.setupDataChannel`:
the direct channel is marked established and becomes the preferred path. -/
def hybridDataChannelOpen (s : HybridState) : HybridState :=
  { s with webrtcReady := true, transportType := .webrtc }

/-- Occupancy of a `GameRoom` durable object (connection handles are
abstracted to identifiers). -/
structure GameRoomConns where
  host : Option Nat
  guest : Option Nat
deriving DecidableEq, Repr

/-- The responses of `GameRoom.fetch` on a join attempt. -/
inductive DOJoinResponse where
  | expectedWebSocket426
  | invalidRole400
  | hostTaken409
  | guestTaken409
  | accepted101 (role : PeerRole) (sentRoomReady : Bool)
deriving DecidableEq, Repr

/-- The join path of `GameRoom.fetch` (after the `/info` branch): require a
WebSocket upgrade, require `role` to be `host` or `guest`, reject an
occupied slot with 409 without touching occupancy, otherwise store the
connection and notify both peers when the room fills. -/
def gameRoomJoin (room : GameRoomConns) (isWebSocketUpgrade : Bool)
    (roleParam : Option String) (conn : Nat) : DOJoinResponse × GameRoomConns :=
  if isWebSocketUpgrade = false then (.expectedWebSocket426, room)
  else
    match roleParam with
    | none => (.invalidRole400, room)
    | some r =>
        if r = "host" then
          if room.host.isSome then (.hostTaken409, room)
          else
            let room := { room with host := some conn }
            (.accepted101 .host (room.host.isSome && room.guest.isSome), room)
        else if r = "guest" then
          if room.guest.isSome then (.guestTaken409, room)
          else
            let room := { room with guest := some conn }
            (.accepted101 .guest (room.host.isSome && room.guest.isSome), room)
        else (.invalidRole400, room)

/-- Occupancy of a room of the local signaling server. -/
structure LocalRoom where
  host : Option Nat
  guest : Option Nat
deriving DecidableEq, Repr

/-- The outcomes of the local server's `wss.on('connection')` handler. -/
inductive LocalJoinOutcome where
  | close4000
  | close4001
  | close4002
  | joinedOk (role : PeerRole) (sentRoomReady : Bool)
deriving DecidableEq, Repr

/-- The local signaling server's connection handler: close 4000 on missing
or invalid `room`/`role` parameters, close 4001/4002 on an occupied
host/guest slot (occupancy untouched), otherwise take the slot and notify
both peers when the room fills. -/
def localServerJoin (room : LocalRoom) (roomIdParam roleParam : Option String)
    (conn : Nat) : LocalJoinOutcome × LocalRoom :=
  match roomIdParam, roleParam with
  | none, _ => (.close4000, room)
  | some _, none => (.close4000, room)
  | some _, some r =>
      if r = "host" then
        if room.host.isSome then (.close4001, room)
        else
          let room := { room with host := some conn }
          (.joinedOk .host (room.host.isSome && room.guest.isSome), room)
      else if r = "guest" then
        if room.guest.isSome then (.close4002, room)
        else
          let room := { room with guest := some conn }
          (.joinedOk .guest (room.host.isSome && room.guest.isSome), room)
      else (.close4000, room)

/-- Intent application for one tick boundary: the queued directional
inputs delivered before that tick, in order. -/
def applyIntents (g : DuelSnakeGame) (l : List (PlayerId × Direction)) : DuelSnakeGame :=
  l.foldl (fun a pd => a.queueInput pd.1 pd.2) g

/-- The snapshot sequence of an engine run: for each tick boundary, apply
that boundary's intents and advance one tick, recording the snapshot
`tick()` returns. -/
def runTrace (g : DuelSnakeGame) : List (List (PlayerId × Direction)) → List DuelSnakeState
  | [] => []
  | intents :: rest =>
      let g1 := (applyIntents g intents).tick
      g1.getState :: runTrace g1 rest

/-- Engine states reachable through the public engine interface. -/
inductive Reachable : DuelSnakeGame → Prop where
  | constructed (o : DuelSnakeOptions) : Reachable (mkGame o)
  | readyUp (g : DuelSnakeGame) (id : PlayerId) : Reachable g → Reachable (g.readyUp id)
  | start (g : DuelSnakeGame) : Reachable g → Reachable g.start
  | queueInput (g : DuelSnakeGame) (id : PlayerId) (d : Direction) :
      Reachable g → Reachable (g.queueInput id d)
  | tick (g : DuelSnakeGame) : Reachable g → Reachable g.tick

theorem opposite_ne (d : Direction) : OPPOSITE d ≠ d := by
  cases d <;> decide

theorem player_setPlayer_same (g : DuelSnakeGame) (id : PlayerId) (pl : PlayerState) :
    (g.setPlayer id pl).player id = pl := by
  cases id <;> rfl

theorem player_setPlayer_other (g : DuelSnakeGame) (id q : PlayerId) (pl : PlayerState)
    (h : q ≠ id) : (g.setPlayer id pl).player q = g.player q := by
  cases id <;> cases q <;> first | rfl | exact absurd rfl h

theorem respawnPlayer_player_other (g : DuelSnakeGame) (id q : PlayerId) (h : q ≠ id) :
    (respawnPlayer g id).player q = g.player q := by
  cases id <;> cases q <;> first | rfl | exact absurd rfl h

theorem applyPhase2_player_other (g : DuelSnakeGame) (id q : PlayerId) (plan : PlannedMove)
    (h : q ≠ id) : (applyPhase2 g id plan).player q = g.player q := by
  cases id <;> cases q <;>
    first
      | exact absurd rfl h
      | (simp only [applyPhase2]; split_ifs <;> rfl)

theorem phase1_fst_direction_ne_opposite (width height : Int) (fruit : Point)
    (occupied : List Point) (pl : PlayerState) :
    ((phase1 width height fruit occupied pl).1).direction ≠ OPPOSITE pl.direction := by
  unfold phase1
  split
  · exact fun h => opposite_ne pl.direction h.symm
  · split
    · exact fun h => opposite_ne pl.direction h.symm
    · cases hp : pl.pendingDirection with
      | none => exact fun h => opposite_ne pl.direction h.symm
      | some d =>
          simp only
          split
          · exact fun h => opposite_ne pl.direction h.symm
          · next hne => exact fun h => hne h.symm

theorem phase1_fst_segments (width height : Int) (fruit : Point)
    (occupied : List Point) (pl : PlayerState) :
    ((phase1 width height fruit occupied pl).1).segments = pl.segments := by
  unfold phase1
  split
  · rfl
  · split
    · rfl
    · cases hp : pl.pendingDirection with
      | none => rfl
      | some d =>
          simp only
          split <;> rfl

theorem phase1_fst_score (width height : Int) (fruit : Point)
    (occupied : List Point) (pl : PlayerState) :
    ((phase1 width height fruit occupied pl).1).score = pl.score := by
  unfold phase1
  split
  · rfl
  · split
    · rfl
    · cases hp : pl.pendingDirection with
      | none => rfl
      | some d =>
          simp only
          split <;> rfl

theorem phase1_cooldown_pos (width height : Int) (fruit : Point)
    (occupied : List Point) (pl : PlayerState) (h : 0 < pl.respawnTicksRemaining) :
    phase1 width height fruit occupied pl =
      ({ pl with respawnTicksRemaining := pl.respawnTicksRemaining - 1 },
       { next := headCell pl.segments, grow := false, collide := false }) := by
  unfold phase1
  rw [if_pos h]

theorem directionDelta_ne_zero (d : Direction) :
    directionDelta d ≠ (⟨0, 0⟩ : Point) := by
  cases d <;> decide

theorem head_add_delta_ne (p : Point) (d : Direction) :
    (⟨p.x + (directionDelta d).x, p.y + (directionDelta d).y⟩ : Point) ≠ p := by
  cases d <;>
    · intro hcontra
      have hx := congrArg Point.x hcontra
      have hy := congrArg Point.y hcontra
      dsimp only [directionDelta] at hx hy
      omega

theorem phase1_next_ne_head (width height : Int) (fruit : Point)
    (occupied : List Point) (pl : PlayerState)
    (h0 : pl.respawnTicksRemaining = 0) (ha : pl.alive = true) :
    (phase1 width height fruit occupied pl).2.next ≠
      headCell ((phase1 width height fruit occupied pl).1).segments := by
  unfold phase1
  rw [if_neg (by omega), if_neg (by simp [ha])]
  cases hp : pl.pendingDirection with
  | none => exact head_add_delta_ne (headCell pl.segments) pl.direction
  | some d =>
      simp only
      split
      · exact head_add_delta_ne (headCell pl.segments) pl.direction
      · exact head_add_delta_ne (headCell pl.segments) d

/-- The state after the phase-1 planning loop of `tick()`: both players
updated in place, everything else untouched. -/
def phase1Players (g : DuelSnakeGame) : DuelSnakeGame :=
  { g with
      p1 := (phase1 g.width g.height g.fruit (collectOccupied g) g.p1).1
      p2 := (phase1 g.width g.height g.fruit (collectOccupied g) g.p2).1 }

theorem phase1Players_player (g : DuelSnakeGame) (id : PlayerId) :
    (phase1Players g).player id =
      (phase1 g.width g.height g.fruit (collectOccupied g) (g.player id)).1 := by
  cases id <;> rfl

theorem tick_not_running (g : DuelSnakeGame) (h : ¬g.status = .running) : g.tick = g := by
  simp [DuelSnakeGame.tick, h]

theorem tick_winner_finishes (g : DuelSnakeGame) (hrun : g.status = .running)
    (hwin : g.winner.isSome) : g.tick = { g with status := .finished } := by
  simp [DuelSnakeGame.tick, hrun, hwin]

theorem tick_eq (g : DuelSnakeGame) (hrun : g.status = .running) (hwin : g.winner = none) :
    g.tick =
      applyPhase2 (applyPhase2 (phase1Players g) .p1 (plannedMove g .p1))
        .p2 (plannedMove g .p2) := by
  simp [DuelSnakeGame.tick, hrun, hwin, plannedMove, phase1Players, DuelSnakeGame.player]

theorem applyPhase2_skip (g : DuelSnakeGame) (id : PlayerId) (plan : PlannedMove)
    (h1 : plan.next = headCell ((g.player id).segments)) (h2 : plan.collide = false) :
    applyPhase2 g id plan = g := by
  simp only [applyPhase2]
  rw [if_pos ⟨h1, h2⟩]

theorem applyPhase2_collide_player (g : DuelSnakeGame) (id : PlayerId) (plan : PlannedMove)
    (hcol : plan.collide = true) :
    (applyPhase2 g id plan).player id = (respawnPlayer g id).player id := by
  simp only [applyPhase2]
  rw [if_neg (fun hAnd => by rw [hcol] at hAnd; exact absurd hAnd.2 (by decide)),
    if_pos hcol]

theorem applyPhase2_move_player (g : DuelSnakeGame) (id : PlayerId) (plan : PlannedMove)
    (hcol : plan.collide = false) (hne : plan.next ≠ headCell ((g.player id).segments)) :
    (applyPhase2 g id plan).player id =
      (if plan.grow = false then
        { g.player id with segments := (plan.next :: (g.player id).segments).dropLast }
      else
        { g.player id with
            segments := plan.next :: (g.player id).segments
            score := (g.player id).score + 1 }) := by
  cases id <;>
    · simp only [applyPhase2]
      rw [if_neg (fun hAnd => hne hAnd.1), if_neg (by simp [hcol])]
      split_ifs <;> rfl

theorem applyPhase2_move_direction (g : DuelSnakeGame) (id : PlayerId) (plan : PlannedMove)
    (hcol : plan.collide = false) :
    ((applyPhase2 g id plan).player id).direction = ((g.player id).direction) := by
  cases id <;>
    · simp only [applyPhase2]
      split_ifs <;> first | rfl | (exact absurd (by assumption) (by simp [hcol]))

theorem length_buildRespawnSegments (x y : Int) (d : Direction) :
    (buildRespawnSegments x y d).length = 3 := by
  cases d <;> rfl

theorem respawnPlayer_player_self (g : DuelSnakeGame) (id : PlayerId) :
    ∃ c : RespawnCandidate,
      (respawnPlayer g id).player id =
        { g.player id with
            segments := buildRespawnSegments c.x c.y c.direction
            direction := c.direction
            pendingDirection := none
            alive := true
            score := 0
            respawnTicksRemaining := 3 } := by
  cases id <;>
    · simp only [respawnPlayer]
      exact ⟨_, rfl⟩

theorem respawnPlayer_self_fields (g : DuelSnakeGame) (id : PlayerId) :
    ((respawnPlayer g id).player id).score = 0 ∧
    ((respawnPlayer g id).player id).segments.length = 3 ∧
    ((respawnPlayer g id).player id).respawnTicksRemaining = 3 := by
  obtain ⟨c, hc⟩ := respawnPlayer_player_self g id
  rw [hc]
  exact ⟨rfl, length_buildRespawnSegments c.x c.y c.direction, rfl⟩

theorem phase1_not_alive_collide (width height : Int) (fruit : Point)
    (occupied : List Point) (pl : PlayerState)
    (h0 : pl.respawnTicksRemaining = 0) (ha : pl.alive = false) :
    (phase1 width height fruit occupied pl).2.collide = true := by
  unfold phase1
  rw [if_neg (by omega), if_pos ha]

/-- C1: for every seed and every ordered per-tick intent schedule, two
independently constructed engines fed the same options produce identical
snapshot sequences.  The only randomness is the `SeededRandom` state
carried inside the engine state and derived from the seed, so the run is
a pure function of the options and the intent schedule. -/
theorem engine_determinism (o : DuelSnakeOptions)
    (sched : List (List (PlayerId × Direction))) (g1 g2 : DuelSnakeGame)
    (h1 : g1 = mkGame o) (h2 : g2 = mkGame o) :
    runTrace g1 sched = runTrace g2 sched := by
  subst h1
  subst h2
  rfl

theorem engine_determinism_witness :
    runTrace (mkGame defaultOptions) [[(.p2, .up)], [], [(.p1, .down)]] =
      runTrace (mkGame defaultOptions) [[(.p2, .up)], [], [(.p1, .down)]] :=
  engine_determinism defaultOptions [[(.p2, .up)], [], [(.p1, .down)]]
    (mkGame defaultOptions) (mkGame defaultOptions) rfl rfl

/-- C2 (amended): an actor's heading after a tick is never the exact
opposite of its heading before the tick, except on a tick where the
engine respawns that actor (its planned move collides, or it is dead,
while the game is running with no recorded winner): a collision-respawn
draws a fresh heading that may be the reverse of the old one. -/
theorem no_reverse_invariant (g : DuelSnakeGame) (id : PlayerId)
    (h : ¬(g.status = .running ∧ g.winner = none ∧ (plannedMove g id).collide = true)) :
    ((g.tick.player id).direction) ≠ OPPOSITE ((g.player id).direction) := by
  by_cases hrun : g.status = .running
  · by_cases hwin : g.winner = none
    · have hcol : (plannedMove g id).collide = false := by
        cases hcb : (plannedMove g id).collide
        · rfl
        · exact absurd ⟨hrun, hwin, hcb⟩ h
      rw [tick_eq g hrun hwin]
      cases id
      · rw [applyPhase2_player_other _ .p2 .p1 _ (by decide),
          applyPhase2_move_direction _ .p1 _ hcol]
        exact phase1_fst_direction_ne_opposite g.width g.height g.fruit (collectOccupied g) g.p1
      · rw [applyPhase2_move_direction _ .p2 _ hcol,
          applyPhase2_player_other _ .p1 .p2 _ (by decide)]
        exact phase1_fst_direction_ne_opposite g.width g.height g.fruit (collectOccupied g) g.p2
    · have hsome : g.winner.isSome := by
        cases hW : g.winner
        · exact absurd hW hwin
        · rfl
      rw [tick_winner_finishes g hrun hsome]
      cases id <;> exact fun hcontra => opposite_ne _ hcontra.symm
  · rw [tick_not_running g hrun]
    exact fun hcontra => opposite_ne _ hcontra.symm

/-- A concrete running state used to witness the amended no-reverse
property: both snakes far from walls, fruit out of the way. -/
def noReverseWitnessGame : DuelSnakeGame :=
  { width := 10
    height := 10
    targetScore := 10
    tickIntervalMs := 50
    rng := 1
    status := .running
    winner := none
    p1 := { direction := .right, pendingDirection := none
            segments := [⟨2, 1⟩, ⟨1, 1⟩, ⟨0, 1⟩]
            score := 0, alive := true, ready := true, respawnTicksRemaining := 0 }
    p2 := { direction := .left, pendingDirection := none
            segments := [⟨7, 8⟩, ⟨8, 8⟩, ⟨9, 8⟩]
            score := 0, alive := true, ready := true, respawnTicksRemaining := 0 }
    fruit := ⟨5, 5⟩ }

theorem no_reverse_invariant_witness :
    ((noReverseWitnessGame.tick.player .p1).direction) ≠
      OPPOSITE ((noReverseWitnessGame.player .p1).direction) :=
  no_reverse_invariant noReverseWitnessGame .p1 (by decide)

/-- The options of the concrete run refuting the unrestricted no-reverse
claim. -/
def noReverseOptions : DuelSnakeOptions :=
  { width := 10, height := 10, targetScore := 10, tickIntervalMs := 50, seed := "s1" }

/-- Seven ticks after starting: p1 is one cell short of the right wall,
still heading right; the eighth tick collides and respawns it. -/
def noReverseCexPre : DuelSnakeGame :=
  ((((mkGame noReverseOptions).readyUp .p1).readyUp
      .p2).start).tick.tick.tick.tick.tick.tick.tick

set_option maxRecDepth 40000 in
/-- C2 counterexample: a reachable state (reached through the public
engine interface alone) on whose next tick p1's heading flips from
`right` to `left`, the exact opposite, because the collision-respawn
picked a leftward placement. -/
theorem no_reverse_counterexample :
    Reachable noReverseCexPre ∧
    (noReverseCexPre.player .p1).direction = .right ∧
    ((noReverseCexPre.tick.player .p1).direction) =
      OPPOSITE ((noReverseCexPre.player .p1).direction) := by
  refine ⟨?_, by decide, by decide⟩
  exact Reachable.tick _ (Reachable.tick _ (Reachable.tick _ (Reachable.tick _
    (Reachable.tick _ (Reachable.tick _ (Reachable.tick _ (Reachable.start _
      (Reachable.readyUp _ .p2 (Reachable.readyUp _ .p1
        (Reachable.constructed noReverseOptions))))))))))

/-- C3: on a running tick with no recorded winner, for an actor that is
not in respawn cooldown and whose planned move does not collide (in the
engine's phase-1 classification collision takes precedence over a
fruit-hit): if the planned next head cell equals the fruit cell the score
and the body length each grow by exactly one; on a normal move the body
length is unchanged. -/
theorem growth_law (g : DuelSnakeGame) (id : PlayerId)
    (hrun : g.status = .running) (hwin : g.winner = none)
    (hcd : (g.player id).respawnTicksRemaining = 0)
    (hcol : (plannedMove g id).collide = false) :
    ((plannedMove g id).grow = true →
        ((g.tick.player id).score = (g.player id).score + 1 ∧
         (g.tick.player id).segments.length = (g.player id).segments.length + 1)) ∧
    ((plannedMove g id).grow = false →
        (g.tick.player id).segments.length = (g.player id).segments.length) := by
  have ha : (g.player id).alive = true := by
    cases hA : (g.player id).alive
    · have hc := phase1_not_alive_collide g.width g.height g.fruit (collectOccupied g)
        (g.player id) hcd hA
      rw [show (phase1 g.width g.height g.fruit (collectOccupied g) (g.player id)).2 =
        plannedMove g id from rfl] at hc
      rw [hc] at hcol
      exact absurd hcol (by decide)
    · rfl
  rw [tick_eq g hrun hwin]
  cases id
  · rw [applyPhase2_player_other _ .p2 .p1 _ (by decide)]
    rw [applyPhase2_move_player (phase1Players g) .p1 (plannedMove g .p1) hcol
      (by
        rw [phase1Players_player]
        exact phase1_next_ne_head g.width g.height g.fruit (collectOccupied g)
          (g.player .p1) hcd ha)]
    constructor
    · intro hgrow
      rw [if_neg (by simp [hgrow])]
      constructor
      · simp [phase1Players_player, phase1_fst_score]
      · simp [phase1Players_player, phase1_fst_segments]
    · intro hgrow
      rw [if_pos hgrow]
      simp [List.length_dropLast, phase1Players_player, phase1_fst_segments]
  · rw [applyPhase2_move_player (applyPhase2 (phase1Players g) .p1 (plannedMove g .p1))
      .p2 (plannedMove g .p2) hcol
      (by
        rw [applyPhase2_player_other _ .p1 .p2 _ (by decide), phase1Players_player]
        exact phase1_next_ne_head g.width g.height g.fruit (collectOccupied g)
          (g.player .p2) hcd ha)]
    rw [applyPhase2_player_other (phase1Players g) .p1 .p2 (plannedMove g .p1) (by decide)]
    constructor
    · intro hgrow
      rw [if_neg (by simp [hgrow])]
      constructor
      · simp [phase1Players_player, phase1_fst_score]
      · simp [phase1Players_player, phase1_fst_segments]
    · intro hgrow
      rw [if_pos hgrow]
      simp [List.length_dropLast, phase1Players_player, phase1_fst_segments]

/-- A concrete running state with the fruit directly ahead of p1, used to
witness the growth law. -/
def growthWitnessGame : DuelSnakeGame :=
  { width := 10
    height := 10
    targetScore := 10
    tickIntervalMs := 50
    rng := 7
    status := .running
    winner := none
    p1 := { direction := .right, pendingDirection := none
            segments := [⟨2, 1⟩, ⟨1, 1⟩, ⟨0, 1⟩]
            score := 0, alive := true, ready := true, respawnTicksRemaining := 0 }
    p2 := { direction := .left, pendingDirection := none
            segments := [⟨7, 8⟩, ⟨8, 8⟩, ⟨9, 8⟩]
            score := 0, alive := true, ready := true, respawnTicksRemaining := 0 }
    fruit := ⟨3, 1⟩ }

theorem growth_law_witness :
    (growthWitnessGame.tick.player .p1).score = (growthWitnessGame.player .p1).score + 1 ∧
    (growthWitnessGame.tick.player .p1).segments.length =
      (growthWitnessGame.player .p1).segments.length + 1 :=
  (growth_law growthWitnessGame .p1 rfl rfl rfl (by decide)).1 (by decide)

/-- C4: on a running tick with no recorded winner, an actor whose planned
move collides is respawned with score 0, a three-cell body and a
three-tick cooldown; and an actor entering the tick with a positive
cooldown has the cooldown decremented by exactly one and its body cells
untouched. -/
theorem collision_reset_law (g : DuelSnakeGame) (id : PlayerId)
    (hrun : g.status = .running) (hwin : g.winner = none) :
    ((plannedMove g id).collide = true →
        ((g.tick.player id).score = 0 ∧
         (g.tick.player id).segments.length = 3 ∧
         (g.tick.player id).respawnTicksRemaining = 3)) ∧
    (0 < (g.player id).respawnTicksRemaining →
        ((g.tick.player id).respawnTicksRemaining =
            (g.player id).respawnTicksRemaining - 1 ∧
         (g.tick.player id).segments = (g.player id).segments)) := by
  rw [tick_eq g hrun hwin]
  constructor
  · intro hcol
    cases id
    · rw [applyPhase2_player_other _ .p2 .p1 _ (by decide),
        applyPhase2_collide_player (phase1Players g) .p1 (plannedMove g .p1) hcol]
      exact respawnPlayer_self_fields (phase1Players g) .p1
    · rw [applyPhase2_collide_player
        (applyPhase2 (phase1Players g) .p1 (plannedMove g .p1)) .p2 (plannedMove g .p2) hcol]
      exact respawnPlayer_self_fields _ .p2
  · intro hpos
    cases id
    · have hph := phase1_cooldown_pos g.width g.height g.fruit (collectOccupied g)
        (g.player .p1) hpos
      have hplan : plannedMove g .p1 =
          { next := headCell (g.player .p1).segments, grow := false, collide := false } := by
        rw [show plannedMove g .p1 =
          (phase1 g.width g.height g.fruit (collectOccupied g) (g.player .p1)).2 from rfl, hph]
      have hpl : (phase1Players g).player .p1 =
          { g.player .p1 with
              respawnTicksRemaining := (g.player .p1).respawnTicksRemaining - 1 } := by
        rw [phase1Players_player, hph]
      have hskip : applyPhase2 (phase1Players g) .p1 (plannedMove g .p1) = phase1Players g :=
        applyPhase2_skip _ _ _ (by rw [hplan, hpl]) (by rw [hplan])
      rw [hskip, applyPhase2_player_other _ .p2 .p1 _ (by decide), hpl]
      exact ⟨rfl, rfl⟩
    · have hph := phase1_cooldown_pos g.width g.height g.fruit (collectOccupied g)
        (g.player .p2) hpos
      have hplan : plannedMove g .p2 =
          { next := headCell (g.player .p2).segments, grow := false, collide := false } := by
        rw [show plannedMove g .p2 =
          (phase1 g.width g.height g.fruit (collectOccupied g) (g.player .p2)).2 from rfl, hph]
      have hpl : (phase1Players g).player .p2 =
          { g.player .p2 with
              respawnTicksRemaining := (g.player .p2).respawnTicksRemaining - 1 } := by
        rw [phase1Players_player, hph]
      have hother : (applyPhase2 (phase1Players g) .p1 (plannedMove g .p1)).player .p2 =
          (phase1Players g).player .p2 :=
        applyPhase2_player_other _ .p1 .p2 _ (by decide)
      have hskip : applyPhase2 (applyPhase2 (phase1Players g) .p1 (plannedMove g .p1))
          .p2 (plannedMove g .p2) =
          applyPhase2 (phase1Players g) .p1 (plannedMove g .p1) :=
        applyPhase2_skip _ _ _ (by rw [hplan, hother, hpl]) (by rw [hplan])
      rw [hskip, hother, hpl]
      exact ⟨rfl, rfl⟩

/-- A concrete running state with p1 one step from the left wall and
heading into it, used to witness the collision reset law. -/
def collisionWitnessGame : DuelSnakeGame :=
  { width := 10
    height := 10
    targetScore := 10
    tickIntervalMs := 50
    rng := 3
    status := .running
    winner := none
    p1 := { direction := .left, pendingDirection := none
            segments := [⟨0, 1⟩, ⟨1, 1⟩, ⟨2, 1⟩]
            score := 4, alive := true, ready := true, respawnTicksRemaining := 0 }
    p2 := { direction := .left, pendingDirection := none
            segments := [⟨7, 8⟩, ⟨8, 8⟩, ⟨9, 8⟩]
            score := 0, alive := true, ready := true, respawnTicksRemaining := 0 }
    fruit := ⟨5, 5⟩ }

theorem collision_reset_law_witness :
    (collisionWitnessGame.tick.player .p1).score = 0 ∧
    (collisionWitnessGame.tick.player .p1).segments.length = 3 ∧
    (collisionWitnessGame.tick.player .p1).respawnTicksRemaining = 3 :=
  (collision_reset_law collisionWitnessGame .p1 rfl rfl).1 (by decide)

/-- A minimal snapshot used for the state-application claims. -/
def idleSnapshot : DuelSnakeState :=
  { status := .idle
    p1 := createPlayer .right
    p2 := createPlayer .left
    fruit := ⟨0, 0⟩
    targetScore := 10
    winner := none
    tickIntervalMs := 120
    width := 40
    height := 30 }

/-- The same snapshot with a different status: a distinct payload carrying
the same tick sequence number. -/
def runningSnapshot : DuelSnakeState :=
  { idleSnapshot with status := .running }

/-- A client mirror that has already applied a state message with tick 5. -/
def staleClientMirror : ClientMirror :=
  { state := some idleSnapshot, lastTick := 5, latencyMs := 0, disposed := false }

/-- C5 counterexample: a state message whose tick equals (hence is less
than or equal to) the last-applied tick is re-applied by the client
(`payload.tick >= this.lastTick`), so a different snapshot with an equal
tick changes the mirror. -/
theorem stale_state_counterexample :
    staleClientMirror.lastTick ≤ staleClientMirror.lastTick ∧
    (clientHandleMessage staleClientMirror 0
        (.stateMsg runningSnapshot staleClientMirror.lastTick 0)).state ≠
      staleClientMirror.state := by
  exact ⟨le_refl _, by decide⟩

/-- C5 (amended): a state message whose tick is strictly below the
last-applied tick leaves the client mirror entirely unchanged; a message
with an equal tick is re-applied (replacing the mirrored snapshot with
the incoming one while leaving the recorded tick unchanged), which is
idempotent only when the incoming snapshot equals the mirrored one. -/
theorem stale_state_ignored (c : ClientMirror) (now : Nat) (s : DuelSnakeState)
    (t st : Nat) (h : t < c.lastTick) :
    clientHandleMessage c now (.stateMsg s t st) = c := by
  unfold clientHandleMessage
  split
  · rfl
  · simp only
    rw [if_neg (by omega)]

theorem stale_state_ignored_witness :
    clientHandleMessage staleClientMirror 0 (.stateMsg runningSnapshot 4 0) =
      staleClientMirror :=
  stale_state_ignored staleClientMirror 0 runningSnapshot 4 0 (by decide)

theorem trimBuffer_of_le (l : List TimestampedInput) (h : l.length ≤ 5) :
    trimBuffer l = l := by
  unfold trimBuffer
  rw [dif_neg (by omega)]

theorem trimBuffer_push_full (l : List TimestampedInput) (x : TimestampedInput)
    (h : l.length = 5) : trimBuffer (l ++ [x]) = l.tail ++ [x] := by
  unfold trimBuffer
  rw [dif_pos (by simp [h])]
  have htail : (l ++ [x]).tail = l.tail ++ [x] := by
    cases l
    · simp at h
    · rfl
  rw [htail, trimBuffer_of_le]
  simp [List.length_tail, h]

/-- C6: the host buffers received Client inputs in a FIFO bounded at five
entries — appending at the back, silently dropping the oldest entry when
the bound would be exceeded — and each tick dequeues at most one buffered
input, applying it as the guest actor's intent before advancing the
engine. -/
theorem input_buffer_fifo (h : HostState) (now t : Nat) (d : Direction)
    (hd : h.disposed = false) :
    ((h.inputBuffer.length < 5 →
        (hostHandleMessage h now ⟨.guest, .inputMsg d t, now⟩).inputBuffer =
          h.inputBuffer ++ [⟨d, now, t⟩]) ∧
     (h.inputBuffer.length = 5 →
        (hostHandleMessage h now ⟨.guest, .inputMsg d t, now⟩).inputBuffer =
          h.inputBuffer.tail ++ [⟨d, now, t⟩]) ∧
     (h.inputBuffer.length ≤ 5 →
        (hostHandleMessage h now ⟨.guest, .inputMsg d t, now⟩).inputBuffer.length ≤ 5)) ∧
    ((hostTick h).inputBuffer = h.inputBuffer.tail ∧
     (hostTick h).game =
       (match h.inputBuffer with
        | [] => h.game
        | i :: _ => h.game.queueInput (roleToPlayer .guest) i.direction).tick) := by
  have hbuf : (hostHandleMessage h now ⟨.guest, .inputMsg d t, now⟩).inputBuffer =
      trimBuffer (h.inputBuffer ++ [⟨d, now, t⟩]) := by
    simp [hostHandleMessage, hd]
  refine ⟨⟨?_, ?_, ?_⟩, ?_, ?_⟩
  · intro hlt
    rw [hbuf, trimBuffer_of_le _ (by simp; omega)]
  · intro heq
    rw [hbuf, trimBuffer_push_full _ _ heq]
  · intro hle
    rcases Nat.lt_or_ge h.inputBuffer.length 5 with hlt | hge
    · rw [hbuf, trimBuffer_of_le _ (by simp; omega)]
      simp
      omega
    · have h5 : h.inputBuffer.length = 5 := le_antisymm hle hge
      rw [hbuf, trimBuffer_push_full _ _ h5]
      simp [List.length_tail, h5]
  · simp [hostTick, hd]
  · simp [hostTick, hd]

/-- A concrete host state with a full input buffer, used to witness the
bounded-FIFO behaviour. -/
def fifoWitnessHost : HostState :=
  { readyHost := true
    readyGuest := true
    inputBuffer :=
      [⟨.up, 0, 1⟩, ⟨.down, 1, 2⟩, ⟨.left, 2, 3⟩, ⟨.right, 3, 4⟩, ⟨.up, 4, 5⟩]
    game := mkGame defaultOptions
    stateCache := (mkGame defaultOptions).getState
    tickCount := 0
    disposed := false }

theorem input_buffer_fifo_witness :
    fifoWitnessHost.inputBuffer.length = 5 ∧
    (hostHandleMessage fifoWitnessHost 9 ⟨.guest, .inputMsg .down 6, 9⟩).inputBuffer =
      fifoWitnessHost.inputBuffer.tail ++ [⟨.down, 9, 6⟩] :=
  ⟨rfl, ((input_buffer_fifo fifoWitnessHost 9 6 .down rfl).1.2.1 rfl)⟩

theorem rtcSendAll_not_open (α : Type) (e : RTCEndpointState α) (l : List α)
    (hd : e.disposed = false) (hc : e.channelOpen = false) :
    rtcSendAll e l = { e with pendingMessages := e.pendingMessages ++ l } := by
  induction l generalizing e with
  | nil => simp [rtcSendAll]
  | cons x xs ih =>
      have hsend : rtcSend e x = { e with pendingMessages := e.pendingMessages ++ [x] } := by
        simp [rtcSend, hd, hc]
      rw [show rtcSendAll e (x :: xs) = rtcSendAll (rtcSend e x) xs from rfl, hsend,
        ih { e with pendingMessages := e.pendingMessages ++ [x] } hd hc]
      simp

theorem rtcSendAll_open (α : Type) (e : RTCEndpointState α) (l : List α)
    (hd : e.disposed = false) (hc : e.channelOpen = true) :
    rtcSendAll e l = { e with sentOnChannel := e.sentOnChannel ++ l } := by
  induction l generalizing e with
  | nil => simp [rtcSendAll]
  | cons x xs ih =>
      have hsend : rtcSend e x = { e with sentOnChannel := e.sentOnChannel ++ [x] } := by
        simp [rtcSend, hd, hc]
      rw [show rtcSendAll e (x :: xs) = rtcSendAll (rtcSend e x) xs from rfl, hsend,
        ih { e with sentOnChannel := e.sentOnChannel ++ [x] } hd hc]
      simp

theorem relaySendAll_not_ready (α : Type) (e : RelayEndpointState α) (l : List α)
    (hd : e.disposed = false) (hc : (e.wsOpen && e.roomReady) = false) :
    relaySendAll e l = { e with pendingMessages := e.pendingMessages ++ l } := by
  induction l generalizing e with
  | nil => simp [relaySendAll]
  | cons x xs ih =>
      have hsend : relaySend e x = { e with pendingMessages := e.pendingMessages ++ [x] } := by
        simp [relaySend, hd, hc]
      rw [show relaySendAll e (x :: xs) = relaySendAll (relaySend e x) xs from rfl, hsend,
        ih { e with pendingMessages := e.pendingMessages ++ [x] } hd hc]
      simp

theorem relaySendAll_ready (α : Type) (e : RelayEndpointState α) (l : List α)
    (hd : e.disposed = false) (hc : (e.wsOpen && e.roomReady) = true) :
    relaySendAll e l = { e with sentOnWire := e.sentOnWire ++ l } := by
  induction l generalizing e with
  | nil => simp [relaySendAll]
  | cons x xs ih =>
      have hsend : relaySend e x = { e with sentOnWire := e.sentOnWire ++ [x] } := by
        simp [relaySend, hd, hc]
      rw [show relaySendAll e (x :: xs) = relaySendAll (relaySend e x) xs from rfl, hsend,
        ih { e with sentOnWire := e.sentOnWire ++ [x] } hd hc]
      simp

theorem rtcHandleOpen_spec (α : Type) (e : RTCEndpointState α) (hd : e.disposed = false) :
    rtcHandleOpen e =
      { e with
          channelOpen := true
          pendingMessages := []
          sentOnChannel := e.sentOnChannel ++ e.pendingMessages } := by
  simp only [rtcHandleOpen]
  rw [rtcSendAll_open α { e with channelOpen := true } e.pendingMessages hd rfl]

theorem relayRoomReady_spec (α : Type) (e : RelayEndpointState α)
    (hd : e.disposed = false) (hw : e.wsOpen = true) :
    relayHandleRoomReady e =
      { e with
          roomReady := true
          pendingMessages := []
          sentOnWire := e.sentOnWire ++ e.pendingMessages } := by
  simp only [relayHandleRoomReady]
  rw [relaySendAll_ready α { e with roomReady := true } e.pendingMessages hd (by simp [hw])]

/-- C7: on both concrete transports, every payload passed to `send()`
before the channel is ready is buffered in send order (nothing reaches
the wire), and the ready transition (data-channel `onopen`, or the
relay's `room-ready` message) sends every buffered payload exactly once,
in the original order, leaving the buffer empty. -/
theorem transport_buffering_flush (α : Type) (e : RTCEndpointState α) (l : List α)
    (r : RelayEndpointState α) (lr : List α)
    (hed : e.disposed = false) (hec : e.channelOpen = false)
    (hrd : r.disposed = false) (hro : r.wsOpen = true) (hrr : r.roomReady = false) :
    ((rtcSendAll e l).pendingMessages = e.pendingMessages ++ l ∧
     (rtcSendAll e l).sentOnChannel = e.sentOnChannel ∧
     (rtcHandleOpen (rtcSendAll e l)).sentOnChannel =
        e.sentOnChannel ++ (e.pendingMessages ++ l) ∧
     (rtcHandleOpen (rtcSendAll e l)).pendingMessages = []) ∧
    ((relaySendAll r lr).pendingMessages = r.pendingMessages ++ lr ∧
     (relaySendAll r lr).sentOnWire = r.sentOnWire ∧
     (relayHandleRoomReady (relaySendAll r lr)).sentOnWire =
        r.sentOnWire ++ (r.pendingMessages ++ lr) ∧
     (relayHandleRoomReady (relaySendAll r lr)).pendingMessages = []) := by
  have hrtc := rtcSendAll_not_open α e l hed hec
  have hrelay := relaySendAll_not_ready α r lr hrd (by simp [hrr])
  rw [hrtc, hrelay,
    rtcHandleOpen_spec α { e with pendingMessages := e.pendingMessages ++ l } hed,
    relayRoomReady_spec α { r with pendingMessages := r.pendingMessages ++ lr } hrd hro]
  exact ⟨⟨rfl, rfl, rfl, rfl⟩, rfl, rfl, rfl, rfl⟩

/-- A WebRTC endpoint with one payload already buffered and the channel
not yet open. -/
def rtcWitnessEndpoint : RTCEndpointState Nat :=
  { channelOpen := false, pendingMessages := [1], sentOnChannel := [], disposed := false }

/-- A relay endpoint whose socket is open but whose room is not yet
ready. -/
def relayWitnessEndpoint : RelayEndpointState Nat :=
  { wsOpen := true, roomReady := false, pendingMessages := [], sentOnWire := []
    disposed := false }

theorem transport_buffering_flush_witness :
    (rtcSendAll rtcWitnessEndpoint [2, 3]).pendingMessages =
        rtcWitnessEndpoint.pendingMessages ++ [2, 3] ∧
    (rtcHandleOpen (rtcSendAll rtcWitnessEndpoint [2, 3])).sentOnChannel =
        rtcWitnessEndpoint.sentOnChannel ++ (rtcWitnessEndpoint.pendingMessages ++ [2, 3]) ∧
    (rtcHandleOpen (rtcSendAll rtcWitnessEndpoint [2, 3])).pendingMessages = [] ∧
    (relayHandleRoomReady (relaySendAll relayWitnessEndpoint [7, 8])).sentOnWire =
        relayWitnessEndpoint.sentOnWire ++
          (relayWitnessEndpoint.pendingMessages ++ [7, 8]) := by
  obtain ⟨⟨h1, _, h3, h4⟩, _, _, h7, _⟩ :=
    transport_buffering_flush Nat rtcWitnessEndpoint [2, 3] relayWitnessEndpoint [7, 8]
      rfl rfl rfl rfl rfl
  exact ⟨h1, h3, h4, h7⟩

/-- C8: while the direct WebRTC data channel is marked established
(`webrtcReady` is true), `handleWebSocketMessage` delivers no game
message arriving on the relay path to the subscribed listeners — all
three game-shaped cases are suppressed — while offer/answer/candidate
signaling messages are still routed to the negotiation handlers exactly
as they would be without suppression. -/
theorem fallback_suppression (α : Type) (s : HybridState) (now : Nat)
    (m : HybridWsMsg α) (h : s.webrtcReady = true) :
    (hybridHandleWebSocketMessage s now m).delivered = [] ∧
    (hybridHandleWebSocketMessage s now m).signals = signalsOf m := by
  cases m <;> simp [hybridHandleWebSocketMessage, signalsOf, h]

/-- A hybrid transport state just after its data channel opened. -/
def hybridWitnessState : HybridState :=
  hybridDataChannelOpen
    { role := .host, roomReady := true, webrtcReady := false
      transportType := .websocket, iceServers := [] }

theorem fallback_suppression_witness :
    (hybridHandleWebSocketMessage hybridWitnessState 0
        (.gameMsg (5 : Nat))).delivered = [] ∧
    (hybridHandleWebSocketMessage hybridWitnessState 0
        (.gameMsg (5 : Nat))).signals = signalsOf (.gameMsg (5 : Nat)) :=
  fallback_suppression Nat hybridWitnessState 0 (.gameMsg 5) rfl

/-- C9: both room coordinators reject a join attempt naming an occupied
slot with a distinct conflict signal (HTTP 409 on the durable object,
close codes 4001/4002 on the local server) without touching the room's
occupancy — whatever the state of the other slot — and reject missing or
invalid room/role parameters with a distinct reason (HTTP 400, close
code 4000) for every room; the conflict signals differ from the
parameter-error signals. -/
theorem join_conflict_rejection (room : GameRoomConns) (lroom : LocalRoom)
    (conn lconn : Nat) (badRole : String) (anyRole : Option String)
    (hbad1 : badRole ≠ "host") (hbad2 : badRole ≠ "guest") :
    ((room.host.isSome = true →
        gameRoomJoin room true (some "host") conn = (.hostTaken409, room)) ∧
     (room.guest.isSome = true →
        gameRoomJoin room true (some "guest") conn = (.guestTaken409, room)) ∧
     gameRoomJoin room true none conn = (.invalidRole400, room) ∧
     gameRoomJoin room true (some badRole) conn = (.invalidRole400, room)) ∧
    ((lroom.host.isSome = true →
        localServerJoin lroom (some "R") (some "host") lconn = (.close4001, lroom)) ∧
     (lroom.guest.isSome = true →
        localServerJoin lroom (some "R") (some "guest") lconn = (.close4002, lroom)) ∧
     localServerJoin lroom none anyRole lconn = (.close4000, lroom) ∧
     localServerJoin lroom (some "R") none lconn = (.close4000, lroom) ∧
     localServerJoin lroom (some "R") (some badRole) lconn = (.close4000, lroom)) ∧
    ((DOJoinResponse.hostTaken409 ≠ .invalidRole400) ∧
     (DOJoinResponse.guestTaken409 ≠ .invalidRole400) ∧
     (LocalJoinOutcome.close4001 ≠ .close4000) ∧
     (LocalJoinOutcome.close4002 ≠ .close4000) ∧
     (LocalJoinOutcome.close4001 ≠ .close4002)) := by
  refine ⟨⟨?_, ?_, ?_, ?_⟩, ⟨?_, ?_, ?_, ?_, ?_⟩, by decide, by decide, by decide,
    by decide, by decide⟩
  · intro hh
    simp [gameRoomJoin, hh]
  · intro hg
    simp [gameRoomJoin, hg]
  · simp [gameRoomJoin]
  · simp [gameRoomJoin, hbad1, hbad2]
  · intro hlh
    simp [localServerJoin, hlh]
  · intro hlg
    simp [localServerJoin, hlg]
  · cases anyRole <;> simp [localServerJoin]
  · simp [localServerJoin]
  · simp [localServerJoin, hbad1, hbad2]

/-- A durable-object room with only the host slot taken. -/
def hostOnlyGameRoom : GameRoomConns := { host := some 1, guest := none }

/-- A local-server room with only the guest slot taken. -/
def guestOnlyLocalRoom : LocalRoom := { host := none, guest := some 2 }

theorem join_conflict_rejection_witness :
    gameRoomJoin hostOnlyGameRoom true (some "host") 3 =
      (.hostTaken409, hostOnlyGameRoom) ∧
    localServerJoin guestOnlyLocalRoom (some "R") (some "guest") 3 =
      (.close4002, guestOnlyLocalRoom) ∧
    localServerJoin guestOnlyLocalRoom (some "R") (some "spectator") 3 =
      (.close4000, guestOnlyLocalRoom) := by
  obtain ⟨⟨h1, _, _, _⟩, ⟨_, h2, _, _, h3⟩, _⟩ :=
    join_conflict_rejection hostOnlyGameRoom guestOnlyLocalRoom 3 3 "spectator" none
      (by decide) (by decide)
  exact ⟨h1 rfl, h2 rfl, h3⟩

theorem mem_intRange (lo hi i : Int) : i ∈ intRange lo hi ↔ lo ≤ i ∧ i < hi := by
  unfold intRange
  rw [List.mem_map]
  constructor
  · rintro ⟨k, hk, rfl⟩
    rw [List.mem_range] at hk
    omega
  · rintro ⟨h1, h2⟩
    refine ⟨(i - lo).toNat, ?_, ?_⟩
    · rw [List.mem_range]
      omega
    · omega

theorem mem_availableCells (width height : Int) (occ : List Point) (c : Point) :
    c ∈ availableCells width height occ ↔
      (0 ≤ c.x ∧ c.x < width ∧ 0 ≤ c.y ∧ c.y < height ∧ c ∉ occ) := by
  unfold availableCells
  rw [List.mem_flatMap]
  constructor
  · rintro ⟨x, hx, hmem⟩
    rw [List.mem_filterMap] at hmem
    obtain ⟨y, hy, hcond⟩ := hmem
    rw [mem_intRange] at hx hy
    by_cases hocc : (⟨x, y⟩ : Point) ∈ occ
    · rw [if_pos hocc] at hcond
      exact absurd hcond (by simp)
    · rw [if_neg hocc] at hcond
      obtain rfl := Option.some.inj hcond
      exact ⟨hx.1, hx.2, hy.1, hy.2, hocc⟩
  · rintro ⟨h1, h2, h3, h4, h5⟩
    refine ⟨c.x, ?_, ?_⟩
    · rw [mem_intRange]
      exact ⟨h1, h2⟩
    · rw [List.mem_filterMap]
      refine ⟨c.y, ?_, ?_⟩
      · rw [mem_intRange]
        exact ⟨h3, h4⟩
      · rw [if_neg (fun hmem => h5 hmem)]

theorem spawnFruit_mem (g : DuelSnakeGame)
    (hne : availableCells g.width g.height (collectOccupied g) ≠ []) :
    (spawnFruit g).1 ∈ availableCells g.width g.height (collectOccupied g) := by
  unfold spawnFruit
  rw [dif_neg hne]
  exact List.get_mem _ _ _

/-- C10: whenever `spawnFruit` places a fruit (at construction or after a
fruit-hit), if at least one grid cell is free of both bodies the fruit
lands on a free in-grid cell; if every grid cell is covered, the fruit is
placed at the fixed cell (0, 0), which may overlap a body. -/
theorem spawn_fruit_placement (g : DuelSnakeGame) :
    ((∃ c : Point, 0 ≤ c.x ∧ c.x < g.width ∧ 0 ≤ c.y ∧ c.y < g.height ∧
        c ∉ collectOccupied g) →
      ((spawnFruit g).1 ∉ collectOccupied g ∧
       0 ≤ (spawnFruit g).1.x ∧ (spawnFruit g).1.x < g.width ∧
       0 ≤ (spawnFruit g).1.y ∧ (spawnFruit g).1.y < g.height)) ∧
    ((∀ c : Point, 0 ≤ c.x → c.x < g.width → 0 ≤ c.y → c.y < g.height →
        c ∈ collectOccupied g) →
      (spawnFruit g).1 = ⟨0, 0⟩) := by
  constructor
  · rintro ⟨c, h1, h2, h3, h4, h5⟩
    have hne : availableCells g.width g.height (collectOccupied g) ≠ [] := by
      intro h0
      have hmem := (mem_availableCells g.width g.height (collectOccupied g) c).2
        ⟨h1, h2, h3, h4, h5⟩
      rw [h0] at hmem
      exact absurd hmem (List.not_mem_nil c)
    have hm := (mem_availableCells g.width g.height (collectOccupied g) _).1
      (spawnFruit_mem g hne)
    exact ⟨hm.2.2.2.2, hm.1, hm.2.1, hm.2.2.1, hm.2.2.2.1⟩
  · intro hall
    unfold spawnFruit
    rw [dif_pos]
    by_contra hne
    obtain ⟨c, hc⟩ := List.exists_mem_of_ne_nil _ hne
    have := (mem_availableCells g.width g.height (collectOccupied g) c).1 hc
    exact this.2.2.2.2 (hall c this.1 this.2.1 this.2.2.1 this.2.2.2.1)

/-- A small running state with free cells, used to witness the fruit
placement property. -/
def fruitWitnessGame : DuelSnakeGame :=
  { width := 6
    height := 6
    targetScore := 10
    tickIntervalMs := 50
    rng := 11
    status := .running
    winner := none
    p1 := { direction := .right, pendingDirection := none
            segments := [⟨2, 1⟩, ⟨1, 1⟩, ⟨0, 1⟩]
            score := 0, alive := true, ready := true, respawnTicksRemaining := 0 }
    p2 := { direction := .left, pendingDirection := none
            segments := [⟨3, 4⟩, ⟨4, 4⟩, ⟨5, 4⟩]
            score := 0, alive := true, ready := true, respawnTicksRemaining := 0 }
    fruit := ⟨5, 5⟩ }

theorem spawn_fruit_placement_witness :
    (spawnFruit fruitWitnessGame).1 ∉ collectOccupied fruitWitnessGame ∧
    0 ≤ (spawnFruit fruitWitnessGame).1.x ∧
    (spawnFruit fruitWitnessGame).1.x < fruitWitnessGame.width ∧
    0 ≤ (spawnFruit fruitWitnessGame).1.y ∧
    (spawnFruit fruitWitnessGame).1.y < fruitWitnessGame.height :=
  (spawn_fruit_placement fruitWitnessGame).1 ⟨⟨0, 0⟩, by decide, by decide, by decide,
    by decide, by decide⟩
